import Mathlib

/-!
Verification of the distribution-provisioning tool (src/src/wsl.rs and
src/src/main.rs) against its natural-language specification.

The stateful code is shallowly embedded as trace-producing interpreters over
outcome oracles:

* every in-guest command issued through the platform's interactive-launch
  entry point (WSL::launch_interactive) is modelled by consuming one outcome
  from an oracle of type Nat -> LaunchRes (the outcome of the n-th launch
  call of the run), while the command string passed to the entry point is
  appended to a trace;
* the external docker / wsl.exe processes of main.rs are modelled by a record
  of per-step process outcomes, again with an event trace.

Within a single call of the modelled functions the distribution name and the
use_current_working_directory flag (always true in the source) are fixed, so
they are elided from the oracle; the command string is what the claims are
about and is recorded faithfully, character for character, from the format
strings of the source.
-/

/-- Outcome of one call of WSL::launch_interactive: the host call itself can
fail (modelled by err, the Err branch of the Rust Result), or it reports the
guest exit code of the launched command (the Ok branch). -/
inductive LaunchRes where
  | err
  | exit (code : Nat)
deriving DecidableEq

/-- Oracle for a run: outcome of the n-th launch_interactive call. -/
abbrev LaunchEnv := Nat → LaunchRes

/-- Call-counter and trace of command strings passed to launch_interactive. -/
structure CallSt where
  idx : Nat
  trace : List String
deriving DecidableEq

/-- One launch_interactive call: consumes the next oracle outcome and records
the command string. -/
def launchI (env : LaunchEnv) (cmd : String) (st : CallSt) : LaunchRes × CallSt :=
  (env st.idx, ⟨st.idx + 1, st.trace ++ [cmd]⟩)

/-- Command string of WSL::file_exists, from format "/usr/bin/test -e {}". -/
def testCmd (f : String) : String := "/usr/bin/test -e " ++ f

/-- Command string of the chpasswd step of WSL::create_user, from format
"echo {}:{} | /usr/sbin/chpasswd". -/
def chpasswdCmd (user pass : String) : String :=
  "echo " ++ user ++ ":" ++ pass ++ " | /usr/sbin/chpasswd"

/-- Command string of the gated group join of WSL::create_user, from format
"getent group {} > /dev/null && /usr/sbin/usermod -aG {} {}". -/
def groupCmd (group user : String) : String :=
  "getent group " ++ group ++ " > /dev/null && /usr/sbin/usermod -aG " ++ group ++ " " ++ user

/-- Command string of the compensating rollback of WSL::create_user, from
format "/usr/sbin/userdel --remove {}". -/
def userDelCmd (user : String) : String := "/usr/sbin/userdel --remove " ++ user

/-- Vec::join with separator " " as used on user_add_args. -/
def joinSp : List String → String
  | [] => ""
  | [x] => x
  | x :: y :: xs => x ++ " " ++ joinSp (y :: xs)

/-- The user_add_args vector built in WSL::create_user. -/
def userAddArgs (bashPath : Option String) (user : String) : List String :=
  "/usr/sbin/useradd" ::
    (match bashPath with
     | some p => ["-s", p]
     | none => []) ++ ["-m", user]

/-- Command string of the account-creation step of WSL::create_user. -/
def userAddCmd (bashPath : Option String) (user : String) : String :=
  joinSp (userAddArgs bashPath user)

/-- WSL::file_exists: launches "/usr/bin/test -e {file}"; the Err branch of
launch_interactive is propagated (modelled by Except.error), otherwise the
result is whether the guest exit code is zero. -/
def file_exists (env : LaunchEnv) (file : String) (st : CallSt) :
    Except Unit Bool × CallSt :=
  match launchI env (testCmd file) st with
  | (.err, st') => (.error (), st')
  | (.exit ec, st') => (.ok (ec == 0), st')

/-- The fixed candidate list of WSL::lookup_shell. -/
def shells : List String := ["/usr/bin/bash", "/bin/bash", "/usr/bin/sh", "/bin/sh"]

/-- The probing loop of WSL::lookup_shell over a candidate list. -/
def lookupShellGo (env : LaunchEnv) : List String → CallSt → Except Unit (Option String) × CallSt
  | [], st => (.ok none, st)
  | c :: cs, st =>
    match file_exists env c st with
    | (.error e, st') => (.error e, st')
    | (.ok true, st') => (.ok (some c), st')
    | (.ok false, st') => lookupShellGo env cs st'

/-- WSL::lookup_shell: first existing candidate of the fixed preference list,
none if none exists, error if a probe's launch itself fails. -/
def lookup_shell (env : LaunchEnv) (st : CallSt) : Except Unit (Option String) × CallSt :=
  lookupShellGo env shells st

/-- Result of WSL::create_user as seen by its caller. errPlatform is a
propagated Err of launch_interactive, errMsg a bail! with the given message,
and panicked models a Rust panic (the process aborts instead of returning a
Result, which happens when the unwrap inside the defer block hits an Err). -/
inductive CUResult where
  | ok
  | errPlatform
  | errMsg (msg : String)
  | panicked
deriving DecidableEq

/-- Observable outcome of one WSL::create_user run: the returned result, the
trace of command strings passed to launch_interactive, whether the
account-creation step had succeeded (the point where the rollback defer is
registered in the source), and the final value of the complete flag. -/
structure CURun where
  result : CUResult
  trace : List String
  accountCreated : Bool
  complete : Bool
deriving DecidableEq

/-- One change_password step of WSL::create_user: propagates a launch error,
bails with the message on a nonzero guest exit code. -/
def passStep (env : LaunchEnv) (cmd msg : String) (st : CallSt) :
    Except (CUResult × CallSt) CallSt :=
  match launchI env cmd st with
  | (.err, st') => .error (.errPlatform, st')
  | (.exit ec, st') => if ec ≠ 0 then .error (.errMsg msg, st') else .ok st'

/-- One add_group_if_exists step of WSL::create_user: propagates a launch
error, ignores the guest exit code. -/
def freeStep (env : LaunchEnv) (cmd : String) (st : CallSt) :
    Except (CUResult × CallSt) CallSt :=
  match launchI env cmd st with
  | (.err, st') => .error (.errPlatform, st')
  | (.exit _, st') => .ok st'

/-- The steps of WSL::create_user that run between account creation and the
completion-flag assignment: root password, user password, the two gated group
joins, in this order. -/
def bodySteps (env : LaunchEnv) (u p : String) (st : CallSt) :
    Except (CUResult × CallSt) CallSt :=
  match passStep env (chpasswdCmd "root" p) "Failed to change password." st with
  | .error e => .error e
  | .ok st1 =>
    match passStep env (chpasswdCmd u p) "Failed to change password." st1 with
    | .error e => .error e
    | .ok st2 =>
      match freeStep env (groupCmd "wheel" u) st2 with
      | .error e => .error e
      | .ok st3 => freeStep env (groupCmd "sudo" u) st3

/-- The defer block of WSL::create_user on a failing exit path (complete is
still false): it launches the userdel rollback and unwraps the platform
result, so an Err of launch_interactive panics, while any guest exit code is
accepted and the original error is returned. -/
def finishFail (env : LaunchEnv) (u : String) (orig : CUResult) (st : CallSt) : CURun :=
  match launchI env (userDelCmd u) st with
  | (.err, st') => ⟨.panicked, st'.trace, true, false⟩
  | (.exit _, st') => ⟨orig, st'.trace, true, false⟩

/-- The part of WSL::create_user after a successful account creation: run the
body steps; on success set the complete flag (the defer then does nothing), on
failure the defer issues the rollback. -/
def afterCreate (env : LaunchEnv) (u p : String) (st : CallSt) : CURun :=
  match bodySteps env u p st with
  | .ok st' => ⟨.ok, st'.trace, true, true⟩
  | .error (r, st') => finishFail env u r st'

/-- WSL::create_user for user u and password p: shell lookup, account
creation (failure here returns before the rollback defer is registered),
then the body steps guarded by the defer. -/
def create_user (env : LaunchEnv) (u p : String) : CURun :=
  match lookup_shell env ⟨0, []⟩ with
  | (.error _, st) => ⟨.errPlatform, st.trace, false, false⟩
  | (.ok bashPath, st) =>
    match launchI env (userAddCmd bashPath u) st with
    | (.err, st') => ⟨.errPlatform, st'.trace, false, false⟩
    | (.exit ec, st') =>
      if ec ≠ 0 then ⟨.errMsg "Failed to add user.", st'.trace, false, false⟩
      else afterCreate env u p st'

/-!
Embedding of the rootfs packaging pipeline, main.rs
get_distribution_rootfs_tar_gz. Each external process invocation is modelled
by one outcome field of DockerEnv, consulted in program order, and the
commands issued (and the persist of the temporary file) are recorded as an
event trace.
-/

/-- Outcome of a spawned process observed via status()/wait(): the spawn or
wait call itself can fail with an io::Error (ioErr, propagated by the ?
operator), or the process exits and reports success or failure. -/
inductive ProcRes where
  | ioErr
  | status (success : Bool)
deriving DecidableEq

/-- Outcome of the docker create invocation observed via output(): io error,
or an exit status together with the captured stdout. Invalid UTF-8 bytes in
stdout (which make String::from_utf8 fail) are modelled by none. -/
inductive CreateRes where
  | ioErr
  | out (success : Bool) (stdout : Option String)
deriving DecidableEq

/-- Per-step outcomes of one get_distribution_rootfs_tar_gz run, in program
order: docker pull, docker create, NamedTempFile::new, spawning docker
export, the File::create / io::copy compression stage, child.wait on the
export process, the docker rm of the defer block, and
NamedTempFile::persist. -/
structure DockerEnv where
  pull : ProcRes
  create : CreateRes
  tempfileOk : Bool
  spawnExportOk : Bool
  copyOk : Bool
  wait : ProcRes
  rm : ProcRes
  persistOk : Bool
deriving DecidableEq

/-- DockerEnv with the rm outcome replaced. -/
def setRm (env : DockerEnv) (r : ProcRes) : DockerEnv :=
  ⟨env.pull, env.create, env.tempfileOk, env.spawnExportOk, env.copyOk, env.wait, r, env.persistOk⟩

/-- Events of the packaging pipeline: the docker commands issued (pull,
create, export, rm, each with their argument) and the successful persist of
the temporary file to the destination path (persist is an atomic rename, so
this event is exactly "the destination path was written"). -/
inductive PipeEv where
  | pullCmd (image : String)
  | createCmd (image : String)
  | exportCmd (cid : String)
  | rmCmd (cid : String)
  | persistEv
deriving DecidableEq

/-- Errors of the pipeline: io models an error propagated by the ? operator
(io::Error, FromUtf8Error or PersistError, whose message comes from the
library, not from this code), msg a bail! with the given message. -/
inductive PipeErr where
  | io
  | msg (s : String)
deriving DecidableEq

/-- Result of one pipeline run: Ok, an error, or a Rust panic aborting the
process (the unwrap inside the defer block hitting an io::Error). -/
inductive PipeResult where
  | ok
  | err (e : PipeErr)
  | panicked
deriving DecidableEq

/-- Observable outcome of one pipeline run: result, event trace, and whether
the "Failed to remove container" warning was printed. -/
structure PipeRun where
  result : PipeResult
  trace : List PipeEv
  rmWarned : Bool
deriving DecidableEq

/-- The "{}:{}" image reference built from distro name and tag. -/
def imageTag (distro tag : String) : String := distro ++ ":" ++ tag

/-- Model of Rust str::trim applied to the captured docker create stdout:
whitespace is stripped from both ends (String::trim of Lean is extensionally
the same but does not reduce well, so the list form is used). -/
def rustTrim (s : String) : String :=
  ⟨((s.data.dropWhile Char.isWhitespace).reverse.dropWhile Char.isWhitespace).reverse⟩

/-- The defer block of get_distribution_rootfs_tar_gz: docker rm of the
captured container id, with output().unwrap() — an io error panics, an
unsuccessful exit prints a warning, and in the non-panicking cases the
pending result orig of the surrounding function is returned unchanged. -/
def runRm (env : DockerEnv) (cid : String) (orig : PipeResult) (tr : List PipeEv) : PipeRun :=
  match env.rm with
  | .ioErr => ⟨.panicked, tr ++ [.rmCmd cid], false⟩
  | .status true => ⟨orig, tr ++ [.rmCmd cid], false⟩
  | .status false => ⟨orig, tr ++ [.rmCmd cid], true⟩

/-- main.rs get_distribution_rootfs_tar_gz: pull the image (bail with a
message naming image and tag on an unsuccessful exit, propagate an io error
raw), docker create capturing the container id from stdout, register the
defer (from that point every path ends in runRm), then temp file, docker
export piped through the gzip encoder into the temp file, wait, and persist
to the destination only after the export reported success. -/
def get_distribution_rootfs_tar_gz (env : DockerEnv) (distro tag : String) : PipeRun :=
  match env.pull with
  | .ioErr => ⟨.err .io, [.pullCmd (imageTag distro tag)], false⟩
  | .status false =>
    ⟨.err (.msg ("Failed to pull distribution: " ++ imageTag distro tag)),
      [.pullCmd (imageTag distro tag)], false⟩
  | .status true =>
    match env.create with
    | .ioErr => ⟨.err .io, [.pullCmd (imageTag distro tag), .createCmd (imageTag distro tag)], false⟩
    | .out false _ =>
      ⟨.err (.msg "Failed to create container"),
        [.pullCmd (imageTag distro tag), .createCmd (imageTag distro tag)], false⟩
    | .out true none =>
      ⟨.err .io, [.pullCmd (imageTag distro tag), .createCmd (imageTag distro tag)], false⟩
    | .out true (some s) =>
      let cid := rustTrim s
      let tr := [.pullCmd (imageTag distro tag), .createCmd (imageTag distro tag)]
      if env.tempfileOk then
        if env.spawnExportOk then
          if env.copyOk then
            match env.wait with
            | .ioErr => runRm env cid (.err .io) (tr ++ [.exportCmd cid])
            | .status false =>
              runRm env cid (.err (.msg "Failed to save distribution tarball")) (tr ++ [.exportCmd cid])
            | .status true =>
              if env.persistOk then runRm env cid .ok (tr ++ [.exportCmd cid, .persistEv])
              else runRm env cid (.err .io) (tr ++ [.exportCmd cid])
          else runRm env cid (.err .io) (tr ++ [.exportCmd cid])
        else runRm env cid (.err .io) (tr ++ [.exportCmd cid])
      else runRm env cid (.err .io) tr

/-!
Embedding of main.rs parse_distro_name. The source matches the input against
the anchored regex "^([^:]+)(:([^:]+))?$": the whole input is one or more
non-colon characters, optionally followed by a colon and one or more
non-colon characters; group 3 defaults to "latest". This is translated by
splitting the character list at colons: the regex matches exactly when the
split yields one nonempty group (no colon) or two nonempty groups (one
colon). -/

/-- Splits a character list at each colon (like the groups the regex can
carve out); always returns at least one group. -/
def splitColon : List Char → List (List Char)
  | [] => [[]]
  | c :: cs =>
    if c = ':' then [] :: splitColon cs
    else
      match splitColon cs with
      | [] => [[c]]
      | g :: gs => (c :: g) :: gs

/-- main.rs parse_distro_name: name and tag of a distribution reference,
tag defaulting to "latest"; inputs not matched by the regex are rejected
with the error of the source. -/
def parse_distro_name (s : String) : Except String (String × String) :=
  match splitColon s.data with
  | [n] =>
    if n = [] then .error "failed to parse distribution name"
    else .ok (String.mk n, "latest")
  | [n, t] =>
    if n = [] ∨ t = [] then .error "failed to parse distribution name"
    else .ok (String.mk n, String.mk t)
  | _ => .error "failed to parse distribution name"

/-!
Embedding of the WSL-API call sequences of main.rs install (the user-setup
block after registration) and set_default_user, for the flags round-trip
claim. The host side is an oracle of per-operation results; the calls made
are recorded with all their arguments.
-/

/-- The DistributionConfiguration record of wsl.rs (WSL_DISTRIBUTION_FLAGS is
a 32-bit bitset, modelled as a Nat). -/
structure DistConf where
  distribution_version : Nat
  default_uid : Nat
  wsl_distribution_flags : Nat
  default_environment_variables : List String
deriving DecidableEq

/-- Calls issued to the WSL layer by the modelled main.rs fragments. -/
inductive WslCall where
  | createUserCall (distro user pass : String)
  | queryUidCall (distro user : String)
  | getConfCall (distro : String)
  | configureCall (distro : String) (defaultUid : Nat) (flags : Nat)
deriving DecidableEq

/-- Host-side outcomes for one run of the modelled main.rs fragments. -/
structure HostEnv where
  createUserRes : Except Unit Unit
  queryUidRes : Except Unit Nat
  getConfRes : Except Unit DistConf
  configureRes : Except Unit Unit

/-- main.rs set_default_user: query the uid (a u64), read the configuration,
and commit the uid (truncated to u32 by the as cast) together with the flags
just read. -/
def set_default_user (env : HostEnv) (distro user : String) :
    Except Unit Unit × List WslCall :=
  match env.queryUidRes with
  | .error e => (.error e, [.queryUidCall distro user])
  | .ok uid =>
    match env.getConfRes with
    | .error e => (.error e, [.queryUidCall distro user, .getConfCall distro])
    | .ok conf =>
      (env.configureRes,
        [.queryUidCall distro user, .getConfCall distro,
          .configureCall distro (uid % 4294967296) conf.wsl_distribution_flags])

/-- The user-setup block of main.rs install (lines 91-95): create_user,
query_uid, get_distribution_configuration, configure_distribution with the
flags just read. -/
def install_user_setup (env : HostEnv) (installName user pass : String) :
    Except Unit Unit × List WslCall :=
  match env.createUserRes with
  | .error e => (.error e, [.createUserCall installName user pass])
  | .ok _ =>
    match env.queryUidRes with
    | .error e => (.error e, [.createUserCall installName user pass, .queryUidCall installName user])
    | .ok uid =>
      match env.getConfRes with
      | .error e =>
        (.error e,
          [.createUserCall installName user pass, .queryUidCall installName user,
            .getConfCall installName])
      | .ok conf =>
        (env.configureRes,
          [.createUserCall installName user pass, .queryUidCall installName user,
            .getConfCall installName,
            .configureCall installName (uid % 4294967296) conf.wsl_distribution_flags])

/-! Helper lemmas: the command strings of create_user are pairwise distinct
enough that counting rollback commands in a trace is well defined. -/

/-- Strings differing at some character position differ. -/
theorem ne_of_data_get (a b : String) (n : Nat) (h : a.data.get? n ≠ b.data.get? n) :
    a ≠ b :=
  fun hab => h (by rw [hab])

/-- Strings with equal character data are equal. -/
theorem data_inj (a b : String) (h : a.data = b.data) : a = b := String.ext h

/-- The file-existence probe command is never the rollback command. -/
theorem testCmd_ne_userDel (f u : String) : testCmd f ≠ userDelCmd u := by
  apply ne_of_data_get _ _ 5
  rw [testCmd, userDelCmd, String.data_append, String.data_append,
    List.get?_append (by decide), List.get?_append (by decide)]
  decide

/-- Character 14 of the rollback command is the d of userdel. -/
theorem userDel_get14 (u : String) : (userDelCmd u).data.get? 14 = some 'd' := by
  rw [userDelCmd, String.data_append, List.get?_append (by decide)]
  decide

/-- Character 0 of the rollback command is a slash. -/
theorem userDel_get0 (u : String) : (userDelCmd u).data.get? 0 = some '/' := by
  rw [userDelCmd, String.data_append, List.get?_append (by decide)]
  decide

/-- The account-creation command is never the rollback command. -/
theorem userAdd_ne_userDel (bp : Option String) (u' u : String) :
    userAddCmd bp u' ≠ userDelCmd u := by
  apply ne_of_data_get _ _ 14
  rw [userDel_get14]
  cases bp with
  | none =>
    rw [show userAddCmd none u' = "/usr/sbin/useradd" ++ " " ++ ("-m" ++ " " ++ u') from rfl]
    rw [String.data_append, String.data_append, List.get?_append (by decide)]
    decide
  | some p =>
    rw [show userAddCmd (some p) u'
        = "/usr/sbin/useradd" ++ " " ++ ("-s" ++ " " ++ (p ++ " " ++ ("-m" ++ " " ++ u'))) from rfl]
    rw [String.data_append, String.data_append, List.get?_append (by decide)]
    decide

/-- The chpasswd command is never the rollback command. -/
theorem chpasswd_ne_userDel (a p u : String) : chpasswdCmd a p ≠ userDelCmd u := by
  apply ne_of_data_get _ _ 0
  rw [userDel_get0]
  rw [show chpasswdCmd a p = "echo " ++ (a ++ (":" ++ (p ++ " | /usr/sbin/chpasswd"))) from by
    apply data_inj; simp [chpasswdCmd, String.data_append, List.append_assoc]]
  rw [String.data_append, List.get?_append (by decide)]
  decide

/-- The gated group-join command is never the rollback command. -/
theorem group_ne_userDel (g u' u : String) : groupCmd g u' ≠ userDelCmd u := by
  apply ne_of_data_get _ _ 0
  rw [userDel_get0]
  rw [show groupCmd g u'
      = "getent group "
        ++ (g ++ (" > /dev/null && /usr/sbin/usermod -aG " ++ (g ++ (" " ++ u')))) from by
    apply data_inj; simp [groupCmd, String.data_append, List.append_assoc]]
  rw [String.data_append, List.get?_append (by decide)]
  decide

/-- Rollback commands for two users coincide exactly when the users do. -/
theorem userDel_inj (u' u : String) : userDelCmd u' = userDelCmd u ↔ u' = u := by
  constructor
  · intro h
    apply data_inj
    have h2 := congrArg String.data h
    rw [userDelCmd, userDelCmd, String.data_append, String.data_append] at h2
    exact List.append_cancel_left h2
  · intro h; rw [h]

/-! Characterization equations for the single steps of create_user, making
the oracle outcome of each step explicit. -/

/-- passStep when the launch itself fails. -/
theorem passStep_of_err (env : LaunchEnv) (cmd msg : String) (st : CallSt)
    (he : env st.idx = .err) :
    passStep env cmd msg st = .error (.errPlatform, ⟨st.idx + 1, st.trace ++ [cmd]⟩) := by
  simp [passStep, launchI, he]

/-- passStep on a nonzero guest exit code. -/
theorem passStep_of_exit_ne (env : LaunchEnv) (cmd msg : String) (st : CallSt) (ec : Nat)
    (he : env st.idx = .exit ec) (hz : ec ≠ 0) :
    passStep env cmd msg st = .error (.errMsg msg, ⟨st.idx + 1, st.trace ++ [cmd]⟩) := by
  simp [passStep, launchI, he, hz]

/-- passStep on a zero guest exit code. -/
theorem passStep_of_exit_zero (env : LaunchEnv) (cmd msg : String) (st : CallSt)
    (he : env st.idx = .exit 0) :
    passStep env cmd msg st = .ok ⟨st.idx + 1, st.trace ++ [cmd]⟩ := by
  simp [passStep, launchI, he]

/-- freeStep when the launch itself fails. -/
theorem freeStep_of_err (env : LaunchEnv) (cmd : String) (st : CallSt)
    (he : env st.idx = .err) :
    freeStep env cmd st = .error (.errPlatform, ⟨st.idx + 1, st.trace ++ [cmd]⟩) := by
  simp [freeStep, launchI, he]

/-- freeStep on any guest exit code. -/
theorem freeStep_of_exit (env : LaunchEnv) (cmd : String) (st : CallSt) (ec : Nat)
    (he : env st.idx = .exit ec) :
    freeStep env cmd st = .ok ⟨st.idx + 1, st.trace ++ [cmd]⟩ := by
  simp [freeStep, launchI, he]

/-- finishFail when the rollback launch itself fails: the unwrap panics. -/
theorem finishFail_of_err (env : LaunchEnv) (u : String) (orig : CUResult) (st : CallSt)
    (he : env st.idx = .err) :
    finishFail env u orig st = ⟨.panicked, st.trace ++ [userDelCmd u], true, false⟩ := by
  simp [finishFail, launchI, he]

/-- finishFail when the rollback command runs, with any guest exit code: the
original error is returned. -/
theorem finishFail_of_exit (env : LaunchEnv) (u : String) (orig : CUResult) (st : CallSt)
    (ec : Nat) (he : env st.idx = .exit ec) :
    finishFail env u orig st = ⟨orig, st.trace ++ [userDelCmd u], true, false⟩ := by
  simp [finishFail, launchI, he]

/-- Outcome shape of a successful passStep. -/
theorem passStep_ok_out (env : LaunchEnv) (cmd msg : String) (st st' : CallSt)
    (h : passStep env cmd msg st = .ok st') : st' = ⟨st.idx + 1, st.trace ++ [cmd]⟩ := by
  rcases he : env st.idx with _ | ec
  · rw [passStep_of_err env cmd msg st he] at h
    exact absurd h (by simp)
  · by_cases hz : ec = 0
    · subst hz
      rw [passStep_of_exit_zero env cmd msg st he] at h
      injection h with h1
      exact h1.symm
    · rw [passStep_of_exit_ne env cmd msg st ec he hz] at h
      exact absurd h (by simp)

/-- Outcome shape of a failing passStep. -/
theorem passStep_err_out (env : LaunchEnv) (cmd msg : String) (st st' : CallSt) (r : CUResult)
    (h : passStep env cmd msg st = .error (r, st')) :
    st' = ⟨st.idx + 1, st.trace ++ [cmd]⟩ ∧ r ≠ .ok := by
  rcases he : env st.idx with _ | ec
  · rw [passStep_of_err env cmd msg st he] at h
    injection h with h1
    injection h1 with ha hb
    exact ⟨hb.symm, by rw [← ha]; simp⟩
  · by_cases hz : ec = 0
    · subst hz
      rw [passStep_of_exit_zero env cmd msg st he] at h
      exact absurd h (by simp)
    · rw [passStep_of_exit_ne env cmd msg st ec he hz] at h
      injection h with h1
      injection h1 with ha hb
      exact ⟨hb.symm, by rw [← ha]; simp⟩

/-- Outcome shape of a successful freeStep. -/
theorem freeStep_ok_out (env : LaunchEnv) (cmd : String) (st st' : CallSt)
    (h : freeStep env cmd st = .ok st') : st' = ⟨st.idx + 1, st.trace ++ [cmd]⟩ := by
  rcases he : env st.idx with _ | ec
  · rw [freeStep_of_err env cmd st he] at h
    exact absurd h (by simp)
  · rw [freeStep_of_exit env cmd st ec he] at h
    injection h with h1
    exact h1.symm

/-- Outcome shape of a failing freeStep. -/
theorem freeStep_err_out (env : LaunchEnv) (cmd : String) (st st' : CallSt) (r : CUResult)
    (h : freeStep env cmd st = .error (r, st')) :
    st' = ⟨st.idx + 1, st.trace ++ [cmd]⟩ ∧ r ≠ .ok := by
  rcases he : env st.idx with _ | ec
  · rw [freeStep_of_err env cmd st he] at h
    injection h with h1
    injection h1 with ha hb
    exact ⟨hb.symm, by rw [← ha]; simp⟩
  · rw [freeStep_of_exit env cmd st ec he] at h
    exact absurd h (by simp)

/-! Trace structure lemmas for the create_user interpreter. -/

/-- The shell-probing loop only appends file-existence probe commands to the
trace. -/
theorem lookupShellGo_trace (env : LaunchEnv) :
    ∀ (cs : List String) (st : CallSt) (r : Except Unit (Option String)) (st' : CallSt),
      lookupShellGo env cs st = (r, st') →
      ∃ fs : List String, st'.trace = st.trace ++ fs.map testCmd := by
  intro cs
  induction cs with
  | nil =>
    intro st r st' h
    rw [lookupShellGo] at h
    injection h with h1 h2
    exact ⟨[], by rw [← h2]; simp⟩
  | cons c cs ih =>
    intro st r st' h
    rcases he : env st.idx with _ | ec
    · simp only [lookupShellGo, file_exists, launchI, he] at h
      injection h with h1 h2
      exact ⟨[c], by rw [← h2]; simp⟩
    · rcases hz : ec == 0
      · simp only [lookupShellGo, file_exists, launchI, he, hz] at h
        obtain ⟨fs, hfs⟩ := ih ⟨st.idx + 1, st.trace ++ [testCmd c]⟩ r st' h
        exact ⟨c :: fs, by simpa [List.append_assoc] using hfs⟩
      · simp only [lookupShellGo, file_exists, launchI, he, hz] at h
        injection h with h1 h2
        exact ⟨[c], by rw [← h2]; simp⟩

/-- No probe command counts as a rollback command. -/
theorem count_userDel_map_testCmd (fs : List String) (u : String) :
    (fs.map testCmd).count (userDelCmd u) = 0 := by
  rw [List.count_eq_zero]
  intro hmem
  obtain ⟨f, _, hf⟩ := List.mem_map.mp hmem
  exact testCmd_ne_userDel f u hf

/-- Appending a command that is not a rollback command leaves the rollback
count unchanged. -/
theorem count_append_single_ne (tr : List String) (c d : String) (hne : c ≠ d) :
    (tr ++ [c]).count d = tr.count d := by
  rw [List.count_append, List.count_cons, List.count_nil, beq_eq_false_iff_ne.mpr hne]
  simp

/-- Appending the rollback command for u raises the rollback count for x
exactly when x = u. -/
theorem count_append_userDel (tr : List String) (u x : String) :
    (tr ++ [userDelCmd u]).count (userDelCmd x)
      = tr.count (userDelCmd x) + if x = u then 1 else 0 := by
  by_cases hxu : x = u
  · subst hxu
    rw [List.count_append, List.count_cons, List.count_nil, if_pos rfl]
    simp
  · have hne : userDelCmd u ≠ userDelCmd x := fun hc => hxu ((userDel_inj u x).mp hc).symm
    rw [count_append_single_ne tr _ _ hne, if_neg hxu]
    simp

/-- Behaviour of the post-account-creation body: on success the trace grows
by exactly the four step commands; on failure the result is not ok and no
rollback command has been added yet. -/
theorem bodySteps_spec (env : LaunchEnv) (u p : String) (st : CallSt) :
    (∀ st', bodySteps env u p st = .ok st' →
       st'.trace = st.trace
         ++ [chpasswdCmd "root" p, chpasswdCmd u p, groupCmd "wheel" u, groupCmd "sudo" u])
    ∧ (∀ r st', bodySteps env u p st = .error (r, st') →
       r ≠ .ok ∧ ∀ x, st'.trace.count (userDelCmd x) = st.trace.count (userDelCmd x)) := by
  constructor
  · intro st' h
    rw [bodySteps] at h
    rcases k1 : passStep env (chpasswdCmd "root" p) "Failed to change password." st
      with e1 | st1 <;> rw [k1] at h <;> simp only [] at h
    · exact absurd h (by simp)
    rcases k2 : passStep env (chpasswdCmd u p) "Failed to change password." st1
      with e2 | st2 <;> rw [k2] at h <;> simp only [] at h
    · exact absurd h (by simp)
    rcases k3 : freeStep env (groupCmd "wheel" u) st2 with e3 | st3 <;>
      rw [k3] at h <;> simp only [] at h
    · exact absurd h (by simp)
    have h4 := freeStep_ok_out _ _ _ _ h
    have h3 := freeStep_ok_out _ _ _ _ k3
    have h2 := passStep_ok_out _ _ _ _ _ k2
    have h1 := passStep_ok_out _ _ _ _ _ k1
    subst h1 h2 h3 h4
    simp
  · intro r st' h
    rw [bodySteps] at h
    rcases k1 : passStep env (chpasswdCmd "root" p) "Failed to change password." st
      with e1 | st1 <;> rw [k1] at h <;> simp only [] at h
    · rcases e1 with ⟨r1, stx⟩
      injection h with h1
      obtain ⟨hst, hr⟩ := passStep_err_out _ _ _ _ _ _ k1
      cases h1
      subst hst
      refine ⟨hr, fun x => ?_⟩
      exact count_append_single_ne _ _ _ (chpasswd_ne_userDel "root" p x)
    rcases k2 : passStep env (chpasswdCmd u p) "Failed to change password." st1
      with e2 | st2 <;> rw [k2] at h <;> simp only [] at h
    · rcases e2 with ⟨r2, stx⟩
      injection h with h1
      obtain ⟨hst, hr⟩ := passStep_err_out _ _ _ _ _ _ k2
      cases h1
      subst hst
      obtain hst1 := passStep_ok_out _ _ _ _ _ k1
      subst hst1
      refine ⟨hr, fun x => ?_⟩
      rw [count_append_single_ne _ _ _ (chpasswd_ne_userDel u p x),
        count_append_single_ne _ _ _ (chpasswd_ne_userDel "root" p x)]
    rcases k3 : freeStep env (groupCmd "wheel" u) st2 with e3 | st3 <;>
      rw [k3] at h <;> simp only [] at h
    · rcases e3 with ⟨r3, stx⟩
      injection h with h1
      obtain ⟨hst, hr⟩ := freeStep_err_out _ _ _ _ _ k3
      cases h1
      subst hst
      obtain hst2 := passStep_ok_out _ _ _ _ _ k2
      subst hst2
      obtain hst1 := passStep_ok_out _ _ _ _ _ k1
      subst hst1
      refine ⟨hr, fun x => ?_⟩
      rw [count_append_single_ne _ _ _ (group_ne_userDel "wheel" u x),
        count_append_single_ne _ _ _ (chpasswd_ne_userDel u p x),
        count_append_single_ne _ _ _ (chpasswd_ne_userDel "root" p x)]
    · rcases e4 : freeStep env (groupCmd "sudo" u) st3 with e5 | st4 <;> rw [e4] at h
      · rcases e5 with ⟨r4, stx⟩
        injection h with h1
        obtain ⟨hst, hr⟩ := freeStep_err_out _ _ _ _ _ e4
        cases h1
        subst hst
        obtain hst3 := freeStep_ok_out _ _ _ _ k3
        subst hst3
        obtain hst2 := passStep_ok_out _ _ _ _ _ k2
        subst hst2
        obtain hst1 := passStep_ok_out _ _ _ _ _ k1
        subst hst1
        refine ⟨hr, fun x => ?_⟩
        rw [count_append_single_ne _ _ _ (group_ne_userDel "sudo" u x),
          count_append_single_ne _ _ _ (group_ne_userDel "wheel" u x),
          count_append_single_ne _ _ _ (chpasswd_ne_userDel u p x),
          count_append_single_ne _ _ _ (chpasswd_ne_userDel "root" p x)]
      · exact absurd h (by simp)

/-- Rollback count of the one-element rollback trace. -/
theorem count_userDel_single (u x : String) :
    List.count (userDelCmd x) [userDelCmd u] = if x = u then 1 else 0 := by
  by_cases hxu : x = u
  · subst hxu; simp [List.count_cons]
  · have hne : userDelCmd u ≠ userDelCmd x := fun hc => hxu ((userDel_inj u x).mp hc).symm
    simp [List.count_cons, beq_eq_false_iff_ne.mpr hne, hxu]

/-- Behaviour of create_user once the account has been created: the account
stays marked as created, the completion flag is set exactly on success, and
the trace gains the rollback command for u exactly once if and only if the
outcome is not ok. -/
theorem afterCreate_spec (env : LaunchEnv) (u p : String) (st : CallSt) :
    (afterCreate env u p st).accountCreated = true
    ∧ ((afterCreate env u p st).complete = true ↔ (afterCreate env u p st).result = .ok)
    ∧ ∀ x, (afterCreate env u p st).trace.count (userDelCmd x)
        = st.trace.count (userDelCmd x)
          + (if (afterCreate env u p st).result = .ok then 0 else if x = u then 1 else 0) := by
  rcases hb : bodySteps env u p st with e | st'
  · rcases e with ⟨r, stx⟩
    obtain ⟨hr, hcnt⟩ := (bodySteps_spec env u p st).2 r stx hb
    rcases he : env stx.idx with _ | ec
    · have hf := finishFail_of_err env u r stx he
      simp only [afterCreate, hb, hf]
      exact ⟨by simp, by simp, fun x => by simp [List.count_append, count_userDel_single, hcnt]⟩
    · have hf := finishFail_of_exit env u r stx ec he
      simp only [afterCreate, hb, hf]
      exact ⟨by simp, by simp [hr], fun x => by
        simp [List.count_append, count_userDel_single, hcnt, hr]⟩
  · have htr := (bodySteps_spec env u p st).1 st' hb
    simp only [afterCreate, hb]
    refine ⟨by simp, by simp, fun x => ?_⟩
    simp [htr, List.count_append, List.count_cons,
      beq_eq_false_iff_ne.mpr (chpasswd_ne_userDel "root" p x),
      beq_eq_false_iff_ne.mpr (chpasswd_ne_userDel u p x),
      beq_eq_false_iff_ne.mpr (group_ne_userDel "wheel" u x),
      beq_eq_false_iff_ne.mpr (group_ne_userDel "sudo" u x)]

/-- C1: in create_user, the rollback command /usr/sbin/userdel --remove
followed by exactly the provisioned user name is issued exactly once if and
only if the account-creation step succeeded and some later step failed
before the completion flag was set; if account creation itself fails no
rollback command is issued, and if all steps succeed no rollback command is
issued. Stated for an arbitrary rollback target x: the count is one exactly
when x is the provisioned user, the run reached the account-created point,
and the run did not end ok. -/
theorem claim_C1 (env : LaunchEnv) (u p x : String) :
    (create_user env u p).trace.count (userDelCmd x)
      = if x = u ∧ (create_user env u p).accountCreated = true
           ∧ (create_user env u p).result ≠ CUResult.ok then 1 else 0 := by
  rcases hl : lookup_shell env ⟨0, []⟩ with ⟨rr, st⟩
  obtain ⟨fs, hfs⟩ := lookupShellGo_trace env shells ⟨0, []⟩ rr st hl
  have hcnt0 : st.trace.count (userDelCmd x) = 0 := by
    rw [hfs]
    simp [count_userDel_map_testCmd]
  rcases rr with e | bashPath
  · simp only [create_user, hl]
    simp [hcnt0]
  · rcases he : env st.idx with _ | ec
    · simp only [create_user, hl, launchI, he]
      simp [count_append_single_ne _ _ _ (userAdd_ne_userDel bashPath u x), hcnt0]
    · by_cases hz : ec = 0
      · subst hz
        simp only [create_user, hl, launchI, he]
        obtain ⟨hac, hcm, hcount⟩ :=
          afterCreate_spec env u p ⟨st.idx + 1, st.trace ++ [userAddCmd bashPath u]⟩
        simp only [ne_eq, not_true_eq_false, if_false, reduceIte]
        rw [hcount x]
        simp only [CallSt.trace] at hcount ⊢
        rw [count_append_single_ne _ _ _ (userAdd_ne_userDel bashPath u x), hcnt0, hac]
        by_cases hres :
            (afterCreate env u p ⟨st.idx + 1, st.trace ++ [userAddCmd bashPath u]⟩).result
              = CUResult.ok <;>
          by_cases hxu : x = u <;> simp [hres, hxu]
      · simp only [create_user, hl, launchI, he]
        simp [hz, count_append_single_ne _ _ _ (userAdd_ne_userDel bashPath u x), hcnt0]

/-- C5: lookup_shell probes the candidates in exactly the order /usr/bin/bash,
/bin/bash, /usr/bin/sh, /bin/sh and returns some of the first candidate whose
existence test succeeds, probing no later candidate, and none when the
existence test fails (nonzero guest exit code) for all four. -/
theorem claim_C5 (env : LaunchEnv) :
    (∀ k, k < 4 → env k = .exit 0 →
      (∀ j, j < k → ∃ c, c ≠ 0 ∧ env j = .exit c) →
      lookup_shell env ⟨0, []⟩
        = (.ok (some (shells.getD k "")), ⟨k + 1, (shells.take (k + 1)).map testCmd⟩))
    ∧ ((∀ j, j < 4 → ∃ c, c ≠ 0 ∧ env j = .exit c) →
      lookup_shell env ⟨0, []⟩ = (.ok none, ⟨4, shells.map testCmd⟩)) := by
  constructor
  · intro k hk h0 hprev
    interval_cases k
    · simp [lookup_shell, lookupShellGo, file_exists, launchI, shells, h0]
    · obtain ⟨c0, hc0, he0⟩ := hprev 0 (by omega)
      simp [lookup_shell, lookupShellGo, file_exists, launchI, shells, h0, he0,
        beq_eq_false_iff_ne.mpr hc0]
    · obtain ⟨c0, hc0, he0⟩ := hprev 0 (by omega)
      obtain ⟨c1, hc1, he1⟩ := hprev 1 (by omega)
      simp [lookup_shell, lookupShellGo, file_exists, launchI, shells, h0, he0, he1,
        beq_eq_false_iff_ne.mpr hc0, beq_eq_false_iff_ne.mpr hc1]
    · obtain ⟨c0, hc0, he0⟩ := hprev 0 (by omega)
      obtain ⟨c1, hc1, he1⟩ := hprev 1 (by omega)
      obtain ⟨c2, hc2, he2⟩ := hprev 2 (by omega)
      simp [lookup_shell, lookupShellGo, file_exists, launchI, shells, h0, he0, he1, he2,
        beq_eq_false_iff_ne.mpr hc0, beq_eq_false_iff_ne.mpr hc1, beq_eq_false_iff_ne.mpr hc2]
  · intro hall
    obtain ⟨c0, hc0, he0⟩ := hall 0 (by omega)
    obtain ⟨c1, hc1, he1⟩ := hall 1 (by omega)
    obtain ⟨c2, hc2, he2⟩ := hall 2 (by omega)
    obtain ⟨c3, hc3, he3⟩ := hall 3 (by omega)
    simp [lookup_shell, lookupShellGo, file_exists, launchI, shells, he0, he1, he2, he3,
      beq_eq_false_iff_ne.mpr hc0, beq_eq_false_iff_ne.mpr hc1,
      beq_eq_false_iff_ne.mpr hc2, beq_eq_false_iff_ne.mpr hc3]

/-- Oracle for the C5 witness: the first probe fails with exit code 1, the
second succeeds. -/
def probeEnvSecond : LaunchEnv := fun i => if i = 1 then .exit 0 else .exit 1

/-- Witness for C5: with the first candidate missing and the second present,
lookup_shell returns /bin/bash after exactly two probes. -/
theorem claim_C5_witness :
    lookup_shell probeEnvSecond ⟨0, []⟩
      = (.ok (some "/bin/bash"), ⟨2, [testCmd "/usr/bin/bash", testCmd "/bin/bash"]⟩) :=
  (claim_C5 probeEnvSecond).1 1 (by decide) rfl
    (fun j hj => ⟨1, by decide, by interval_cases j; rfl⟩)

/-- C7: group joins are best-effort. Whenever the shell lookup returns
(having consumed n oracle outcomes), account creation and both password
steps report guest exit code zero, and the two gated group-join commands
report arbitrary guest exit codes cw and cs (in particular nonzero, as when
the group does not exist), create_user still returns ok, sets the completion
flag, and issues no rollback command. -/
theorem claim_C7 (env : LaunchEnv) (u p : String) (sh : Option String) (n : Nat)
    (tr : List String) (cw cs : Nat)
    (hl : lookup_shell env ⟨0, []⟩ = (.ok sh, ⟨n, tr⟩))
    (h0 : env n = .exit 0) (h1 : env (n + 1) = .exit 0) (h2 : env (n + 2) = .exit 0)
    (h3 : env (n + 3) = .exit cw) (h4 : env (n + 4) = .exit cs) :
    (create_user env u p).result = CUResult.ok
    ∧ (create_user env u p).complete = true
    ∧ (create_user env u p).trace.count (userDelCmd u) = 0 := by
  have k1 := passStep_of_exit_zero env (chpasswdCmd "root" p) "Failed to change password."
    ⟨n + 1, tr ++ [userAddCmd sh u]⟩ h1
  have k2 := passStep_of_exit_zero env (chpasswdCmd u p) "Failed to change password."
    ⟨n + 2, tr ++ [userAddCmd sh u] ++ [chpasswdCmd "root" p]⟩ h2
  have k3 := freeStep_of_exit env (groupCmd "wheel" u)
    ⟨n + 3, tr ++ [userAddCmd sh u] ++ [chpasswdCmd "root" p] ++ [chpasswdCmd u p]⟩ cw h3
  have k4 := freeStep_of_exit env (groupCmd "sudo" u)
    ⟨n + 4, tr ++ [userAddCmd sh u] ++ [chpasswdCmd "root" p] ++ [chpasswdCmd u p]
      ++ [groupCmd "wheel" u]⟩ cs h4
  simp only [create_user, hl, launchI, h0]
  simp only [ne_eq, not_true_eq_false, if_false, reduceIte]
  simp only [afterCreate, bodySteps]
  simp only [k1]
  simp only [k2]
  simp only [k3]
  simp only [k4]
  obtain ⟨fs, hfs⟩ := lookupShellGo_trace env shells ⟨0, []⟩ (.ok sh) ⟨n, tr⟩ hl
  simp only [CallSt.trace] at hfs
  refine ⟨trivial, trivial, ?_⟩
  rw [count_append_single_ne _ _ _ (group_ne_userDel "sudo" u u),
    count_append_single_ne _ _ _ (group_ne_userDel "wheel" u u),
    count_append_single_ne _ _ _ (chpasswd_ne_userDel u p u),
    count_append_single_ne _ _ _ (chpasswd_ne_userDel "root" p u),
    count_append_single_ne _ _ _ (userAdd_ne_userDel sh u u)]
  rw [hfs]
  simp [count_userDel_map_testCmd]

/-- Oracle for the C7 witness: every launch reports exit code zero except the
wheel group join, which reports exit code 2 (group missing). -/
def groupsEnvWheelMissing : LaunchEnv := fun i => if i = 4 then .exit 2 else .exit 0

/-- Witness for C7: provisioning alice with the wheel group join failing and
the sudo one succeeding still completes with no rollback. -/
theorem claim_C7_witness :
    (create_user groupsEnvWheelMissing "alice" "pw").result = CUResult.ok
    ∧ (create_user groupsEnvWheelMissing "alice" "pw").complete = true
    ∧ (create_user groupsEnvWheelMissing "alice" "pw").trace.count (userDelCmd "alice") = 0 :=
  claim_C7 groupsEnvWheelMissing "alice" "pw" (some "/usr/bin/bash") 1
    [testCmd "/usr/bin/bash"] 2 0 rfl rfl rfl rfl rfl rfl

/-- Oracle for the C4 counterexample: shell probe and account creation
succeed, the root-password step reports guest exit code 1, and the platform
launch call for the rollback userdel itself returns an error. -/
def rollbackLaunchErrEnv : LaunchEnv :=
  fun i => if i = 2 then .exit 1 else if i = 3 then .err else .exit 0

/-- Counterexample to C4 as stated: when the platform launch call for the
in-guest userdel rollback returns an error, create_user does not return an
error result to its caller — the unwrap in the defer block panics, aborting
the provisioning process (modelled by the panicked outcome, distinct from
every returned Result). -/
theorem claim_C4_counterexample :
    (create_user rollbackLaunchErrEnv "alice" "pw").result = CUResult.panicked := by
  rfl

/-- C4 amended: the compensating rollback tolerates the userdel guest command
itself failing — for every guest exit code of the rollback command (zero or
nonzero) create_user returns the original error result to its caller — but if
the platform launch call for the rollback returns an error, the unwrap
panics and create_user aborts instead of returning an error. Stated in the
scenario where the first probe, account creation succeed and the
root-password step fails with guest exit code 1. -/
theorem claim_C4 (env : LaunchEnv) (u p : String)
    (h0 : env 0 = .exit 0) (h1 : env 1 = .exit 0) (h2 : env 2 = .exit 1) :
    (∀ c, env 3 = .exit c →
      (create_user env u p).result = CUResult.errMsg "Failed to change password.")
    ∧ (env 3 = .err → (create_user env u p).result = CUResult.panicked) := by
  have hl : lookup_shell env ⟨0, []⟩
      = (.ok (some "/usr/bin/bash"), ⟨1, [testCmd "/usr/bin/bash"]⟩) := by
    simp [lookup_shell, lookupShellGo, file_exists, launchI, shells, h0]
  have k1 := passStep_of_exit_ne env (chpasswdCmd "root" p) "Failed to change password."
    ⟨2, [testCmd "/usr/bin/bash"] ++ [userAddCmd (some "/usr/bin/bash") u]⟩ 1 h2 (by decide)
  constructor
  · intro c hc
    have hf := finishFail_of_exit env u (.errMsg "Failed to change password.")
      ⟨3, [testCmd "/usr/bin/bash"] ++ [userAddCmd (some "/usr/bin/bash") u]
        ++ [chpasswdCmd "root" p]⟩ c hc
    simp only [create_user, hl, launchI, h1]
    simp only [ne_eq, not_true_eq_false, if_false, reduceIte]
    simp only [afterCreate, bodySteps]
    simp only [k1]
    simp only [hf]
  · intro hc
    have hf := finishFail_of_err env u (.errMsg "Failed to change password.")
      ⟨3, [testCmd "/usr/bin/bash"] ++ [userAddCmd (some "/usr/bin/bash") u]
        ++ [chpasswdCmd "root" p]⟩ hc
    simp only [create_user, hl, launchI, h1]
    simp only [ne_eq, not_true_eq_false, if_false, reduceIte]
    simp only [afterCreate, bodySteps]
    simp only [k1]
    simp only [hf]

/-- Oracle for the C4 witness: as in the counterexample scenario, but the
rollback userdel runs and reports guest exit code 7. -/
def rollbackRunsEnv : LaunchEnv :=
  fun i => if i = 2 then .exit 1 else if i = 3 then .exit 7 else .exit 0

/-- Witness for the amended C4: with the rollback command reporting a nonzero
guest exit code, create_user still returns the original error result. -/
theorem claim_C4_witness :
    (create_user rollbackRunsEnv "alice" "pw").result
      = CUResult.errMsg "Failed to change password." :=
  (claim_C4 rollbackRunsEnv "alice" "pw" rfl rfl rfl).1 7 rfl

/-- Oracle on which every guest command reports exit code zero. -/
def allZeroEnv : LaunchEnv := fun _ => .exit 0

/-- C10: the password-setting command is built by plain string interpolation
with no quoting or escaping. For every user and password the command string
passed to launch_interactive is exactly "echo " followed by the user, a
colon, the password, and " | /usr/sbin/chpasswd" (visible at positions three
and four of the trace of a fully successful run), and the interpolation is
ambiguous: two different (user, password) pairs can produce the very same
guest command string. -/
theorem claim_C10 :
    (∀ u p, chpasswdCmd u p = "echo " ++ u ++ ":" ++ p ++ " | /usr/sbin/chpasswd")
    ∧ (∀ u p, (create_user allZeroEnv u p).trace
        = [testCmd "/usr/bin/bash", userAddCmd (some "/usr/bin/bash") u,
           chpasswdCmd "root" p, chpasswdCmd u p, groupCmd "wheel" u, groupCmd "sudo" u])
    ∧ chpasswdCmd "alice" "b:c" = chpasswdCmd "alice:b" "c"
    ∧ ("alice", "b:c") ≠ (("alice:b", "c") : String × String) := by
  refine ⟨fun u p => rfl, fun u p => rfl, by decide, by decide⟩

/-! Helper lemmas for the packaging pipeline. -/

/-- The defer block always appends exactly one docker rm event. -/
theorem runRm_trace (env : DockerEnv) (cid : String) (orig : PipeResult) (tr : List PipeEv) :
    (runRm env cid orig tr).trace = tr ++ [.rmCmd cid] := by
  rcases hr : env.rm with _ | b
  · simp [runRm, hr]
  · cases b <;> simp [runRm, hr]

/-- When docker rm runs (any exit status), the pending result is returned. -/
theorem runRm_result_of_status (env : DockerEnv) (cid : String) (orig : PipeResult)
    (tr : List PipeEv) (b : Bool) (hr : env.rm = .status b) :
    (runRm env cid orig tr).result = orig := by
  cases b <;> simp [runRm, hr]

/-- When spawning docker rm fails with an io error, the unwrap panics. -/
theorem runRm_result_of_ioErr (env : DockerEnv) (cid : String) (orig : PipeResult)
    (tr : List PipeEv) (hr : env.rm = .ioErr) :
    (runRm env cid orig tr).result = .panicked := by
  simp [runRm, hr]

/-- When docker rm exits unsuccessfully, the warning is printed. -/
theorem runRm_warned_of_false (env : DockerEnv) (cid : String) (orig : PipeResult)
    (tr : List PipeEv) (hr : env.rm = .status false) :
    (runRm env cid orig tr).rmWarned = true := by
  simp [runRm, hr]

/-- Pending result of the export/compress phase (the result the pipeline is
about to return when the defer block runs), as a function of the per-step
outcomes. -/
def exportPhaseResult (env : DockerEnv) : PipeResult :=
  if env.tempfileOk then
    if env.spawnExportOk then
      if env.copyOk then
        match env.wait with
        | .ioErr => .err .io
        | .status false => .err (.msg "Failed to save distribution tarball")
        | .status true => if env.persistOk then .ok else .err .io
      else .err .io
    else .err .io
  else .err .io

/-- Events of the export/compress phase before the defer block runs. -/
def exportPhaseTail (env : DockerEnv) (cid : String) : List PipeEv :=
  if env.tempfileOk then
    if env.spawnExportOk then
      if env.copyOk then
        match env.wait with
        | .status true => if env.persistOk then [.exportCmd cid, .persistEv] else [.exportCmd cid]
        | _ => [.exportCmd cid]
      else [.exportCmd cid]
    else [.exportCmd cid]
  else []

/-- Once the container is materialized and its id captured, the pipeline is
the export/compress phase followed by the defer block. -/
theorem pipeline_materialized (env : DockerEnv) (d t s : String)
    (hpull : env.pull = .status true) (hcreate : env.create = .out true (some s)) :
    get_distribution_rootfs_tar_gz env d t
      = runRm env (rustTrim s) (exportPhaseResult env)
          ([.pullCmd (imageTag d t), .createCmd (imageTag d t)]
            ++ exportPhaseTail env (rustTrim s)) := by
  cases ht : env.tempfileOk
  · simp [get_distribution_rootfs_tar_gz, hpull, hcreate, ht, exportPhaseResult, exportPhaseTail]
  cases hs : env.spawnExportOk
  · simp [get_distribution_rootfs_tar_gz, hpull, hcreate, ht, hs,
      exportPhaseResult, exportPhaseTail]
  cases hc : env.copyOk
  · simp [get_distribution_rootfs_tar_gz, hpull, hcreate, ht, hs, hc,
      exportPhaseResult, exportPhaseTail]
  rcases hw : env.wait with _ | b
  · simp [get_distribution_rootfs_tar_gz, hpull, hcreate, ht, hs, hc, hw,
      exportPhaseResult, exportPhaseTail]
  cases b
  · simp [get_distribution_rootfs_tar_gz, hpull, hcreate, ht, hs, hc, hw,
      exportPhaseResult, exportPhaseTail]
  cases hp : env.persistOk <;>
    simp [get_distribution_rootfs_tar_gz, hpull, hcreate, ht, hs, hc, hw, hp,
      exportPhaseResult, exportPhaseTail]

/-- The export/compress phase never issues a docker rm itself. -/
theorem rm_not_mem_tail (env : DockerEnv) (cid c : String) :
    PipeEv.rmCmd c ∉ exportPhaseTail env cid := by
  rw [exportPhaseTail]
  rcases hw : env.wait with _ | b
  · split_ifs <;> simp [hw]
  · cases b <;> split_ifs <;> simp [hw]

/-- The persist event occurs in the export/compress phase exactly when every
step up to and including the persist succeeded. -/
theorem persist_mem_tail (env : DockerEnv) (cid : String) :
    PipeEv.persistEv ∈ exportPhaseTail env cid
      ↔ (env.tempfileOk = true ∧ env.spawnExportOk = true ∧ env.copyOk = true
         ∧ env.wait = .status true ∧ env.persistOk = true) := by
  rw [exportPhaseTail]
  cases ht : env.tempfileOk
  · simp
  cases hs : env.spawnExportOk
  · simp
  cases hc : env.copyOk
  · simp
  rcases hw : env.wait with _ | b
  · simp
  cases b
  · simp
  cases hp : env.persistOk <;> simp [hp]

/-- Appending the single rm event to an rm-free trace yields rm count one. -/
theorem count_rm_append (l : List PipeEv) (cid : String)
    (h : ∀ c, PipeEv.rmCmd c ∉ l) :
    (l ++ [PipeEv.rmCmd cid]).count (PipeEv.rmCmd cid) = 1 := by
  rw [List.count_append, List.count_eq_zero.mpr (h cid), List.count_cons]
  simp

/-- C3: the pipeline persists the compressed temporary file to the
caller-supplied destination (the persist event) exactly when pull, create
(with a decodable id), temp-file creation, export spawn, the copy into the
compressor, the export wait, and the persist itself all succeed — in
particular only after the export process has reported success, and on any
earlier failure the destination is not written. -/
theorem claim_C3 (env : DockerEnv) (d t : String) :
    PipeEv.persistEv ∈ (get_distribution_rootfs_tar_gz env d t).trace
      ↔ (env.pull = .status true ∧ (∃ s, env.create = .out true (some s))
         ∧ env.tempfileOk = true ∧ env.spawnExportOk = true ∧ env.copyOk = true
         ∧ env.wait = .status true ∧ env.persistOk = true) := by
  rcases hp : env.pull with _ | b
  · simp [get_distribution_rootfs_tar_gz, hp]
  cases b
  · simp [get_distribution_rootfs_tar_gz, hp]
  rcases hcr : env.create with _ | ⟨bc, so⟩
  · simp [get_distribution_rootfs_tar_gz, hp, hcr]
  cases bc
  · simp [get_distribution_rootfs_tar_gz, hp, hcr]
  rcases so with _ | s
  · simp [get_distribution_rootfs_tar_gz, hp, hcr]
  · rw [pipeline_materialized env d t s hp hcr, runRm_trace]
    simp [persist_mem_tail, hcr]

/-- Docker environment for the C2 counterexample: pull, create (id abc123),
export and persist all succeed, but spawning the docker rm of the defer
block fails with an io error. -/
def rmIoErrEnv : DockerEnv :=
  ⟨.status true, .out true (some "abc123"), true, true, true, .status true, .ioErr, true⟩

/-- Counterexample to C2 as stated: when the removal process cannot be
started, its failure is not reported as a warning leaving the primary result
unchanged — the unwrap in the defer block panics, so the otherwise fully
successful run does not report ok. -/
theorem claim_C2_counterexample :
    (get_distribution_rootfs_tar_gz rmIoErrEnv "ubuntu" "20.04").result = PipeResult.panicked
    ∧ (get_distribution_rootfs_tar_gz rmIoErrEnv "ubuntu" "20.04").result ≠ PipeResult.ok :=
  ⟨rfl, by decide⟩

/-- C2 amended: once the container is materialized (docker create succeeded
and its stdout decoded), the docker rm of the captured (trimmed) instance id
runs exactly once on every termination path of the export/compress step; an
rm that runs but exits unsuccessfully is reported as a warning and leaves the
pipeline's primary result unchanged; but an rm whose process cannot be
started panics (unwrap) instead of warning. Without a captured instance id no
rm is ever issued. -/
theorem claim_C2 (env : DockerEnv) (d t s : String)
    (hpull : env.pull = .status true) (hcreate : env.create = .out true (some s)) :
    ((get_distribution_rootfs_tar_gz env d t).trace.count (PipeEv.rmCmd (rustTrim s)) = 1)
    ∧ ((get_distribution_rootfs_tar_gz (setRm env (.status false)) d t).result
        = (get_distribution_rootfs_tar_gz (setRm env (.status true)) d t).result)
    ∧ ((get_distribution_rootfs_tar_gz (setRm env (.status false)) d t).rmWarned = true)
    ∧ (env.rm = .ioErr → (get_distribution_rootfs_tar_gz env d t).result = .panicked)
    ∧ (∀ env' : DockerEnv, (∀ s', env'.create ≠ .out true (some s')) →
        ∀ i, PipeEv.rmCmd i ∉ (get_distribution_rootfs_tar_gz env' d t).trace) := by
  refine ⟨?_, ?_, ?_, ?_, ?_⟩
  · rw [pipeline_materialized env d t s hpull hcreate, runRm_trace]
    apply count_rm_append
    intro c hc
    rcases List.mem_append.mp hc with hm | hm
    · simp at hm
    · exact rm_not_mem_tail env (rustTrim s) c hm
  · rw [pipeline_materialized (setRm env (.status false)) d t s hpull hcreate,
      pipeline_materialized (setRm env (.status true)) d t s hpull hcreate,
      runRm_result_of_status _ _ _ _ false rfl, runRm_result_of_status _ _ _ _ true rfl]
    rfl
  · rw [pipeline_materialized (setRm env (.status false)) d t s hpull hcreate]
    exact runRm_warned_of_false _ _ _ _ rfl
  · intro hio
    rw [pipeline_materialized env d t s hpull hcreate]
    exact runRm_result_of_ioErr _ _ _ _ hio
  · intro env' hno i
    rcases hp : env'.pull with _ | b
    · simp [get_distribution_rootfs_tar_gz, hp]
    cases b
    · simp [get_distribution_rootfs_tar_gz, hp]
    rcases hcr : env'.create with _ | ⟨bc, so⟩
    · simp [get_distribution_rootfs_tar_gz, hp, hcr]
    cases bc
    · simp [get_distribution_rootfs_tar_gz, hp, hcr]
    rcases so with _ | s'
    · simp [get_distribution_rootfs_tar_gz, hp, hcr]
    · exact absurd hcr (hno s')

/-- Docker environment for the C2 witness: fully successful run, rm included. -/
def fullRunEnv : DockerEnv :=
  ⟨.status true, .out true (some "abc123"), true, true, true, .status true, .status true, true⟩

/-- Witness for the amended C2 at a fully successful concrete run. -/
theorem claim_C2_witness :
    ((get_distribution_rootfs_tar_gz fullRunEnv "ubuntu" "20.04").trace.count
        (PipeEv.rmCmd (rustTrim "abc123")) = 1)
    ∧ ((get_distribution_rootfs_tar_gz (setRm fullRunEnv (.status false)) "ubuntu" "20.04").result
        = (get_distribution_rootfs_tar_gz (setRm fullRunEnv (.status true)) "ubuntu" "20.04").result)
    ∧ ((get_distribution_rootfs_tar_gz (setRm fullRunEnv (.status false)) "ubuntu" "20.04").rmWarned
        = true)
    ∧ (fullRunEnv.rm = .ioErr →
        (get_distribution_rootfs_tar_gz fullRunEnv "ubuntu" "20.04").result = .panicked)
    ∧ (∀ env' : DockerEnv, (∀ s', env'.create ≠ .out true (some s')) →
        ∀ i, PipeEv.rmCmd i ∉ (get_distribution_rootfs_tar_gz env' "ubuntu" "20.04").trace) :=
  claim_C2 fullRunEnv "ubuntu" "20.04" "abc123" rfl rfl

/-- Docker environment for the C8 counterexample: the pull process cannot be
started at all. -/
def pullIoErrEnv : DockerEnv :=
  ⟨.ioErr, .out true (some "abc123"), true, true, true, .status true, .status true, true⟩

/-- Counterexample to C8 as stated: when the pull process cannot be started,
the operation fails with the raw propagated spawn error, not with an error
message naming the pull stage and the failed image. -/
theorem claim_C8_counterexample :
    (get_distribution_rootfs_tar_gz pullIoErrEnv "ubuntu" "latest").result = .err .io
    ∧ (get_distribution_rootfs_tar_gz pullIoErrEnv "ubuntu" "latest").result
        ≠ .err (.msg ("Failed to pull distribution: " ++ imageTag "ubuntu" "latest")) :=
  ⟨rfl, by decide⟩

/-- C8 amended: if the pull process exits non-zero the pipeline fails
immediately with the bail message naming the pull stage and the failed
image:tag; if the pull process cannot be started the raw spawn error is
propagated instead; in both cases the trace is the single pull command, so no
container-creation command is ever issued. -/
theorem claim_C8 (env : DockerEnv) (d t : String) :
    (env.pull = .status false →
      (get_distribution_rootfs_tar_gz env d t).result
          = .err (.msg ("Failed to pull distribution: " ++ imageTag d t))
        ∧ (get_distribution_rootfs_tar_gz env d t).trace = [.pullCmd (imageTag d t)])
    ∧ (env.pull = .ioErr →
      (get_distribution_rootfs_tar_gz env d t).result = .err .io
        ∧ (get_distribution_rootfs_tar_gz env d t).trace = [.pullCmd (imageTag d t)]) := by
  constructor <;> intro hp <;> constructor <;> simp [get_distribution_rootfs_tar_gz, hp]

/-- Docker environment for the C8 witness: the pull process exits non-zero. -/
def pullFailEnv : DockerEnv :=
  ⟨.status false, .out true (some "abc123"), true, true, true, .status true, .status true, true⟩

/-- Witness for the amended C8: a failing pull yields the bail message naming
pull and image, and the trace holds only the pull command. -/
theorem claim_C8_witness :
    (get_distribution_rootfs_tar_gz pullFailEnv "ubuntu" "latest").result
        = .err (.msg ("Failed to pull distribution: " ++ imageTag "ubuntu" "latest"))
    ∧ (get_distribution_rootfs_tar_gz pullFailEnv "ubuntu" "latest").trace
        = [.pullCmd (imageTag "ubuntu" "latest")] :=
  (claim_C8 pullFailEnv "ubuntu" "latest").1 rfl

/-! Lemmas about splitColon for the distro-name parser. -/

/-- splitColon always yields at least one group. -/
theorem splitColon_ne_nil : ∀ l : List Char, splitColon l ≠ [] := by
  intro l
  induction l with
  | nil => simp [splitColon]
  | cons c cs ih =>
    rw [splitColon]
    split_ifs
    · simp
    · rcases hg : splitColon cs with _ | ⟨g, gs⟩
      · simp
      · simp [hg]

/-- A colon-free list is one single group. -/
theorem splitColon_no_colon : ∀ l : List Char, ':' ∉ l → splitColon l = [l] := by
  intro l
  induction l with
  | nil => intro _; rfl
  | cons c cs ih =>
    intro h
    have hc : ¬ c = ':' := fun hc => h (by simp [hc])
    have hcs : ':' ∉ cs := fun hm => h (by simp [hm])
    rw [splitColon, if_neg hc, ih hcs]

/-- Splitting after a leading colon-free prefix. -/
theorem splitColon_append_colon :
    ∀ a b : List Char, ':' ∉ a → splitColon (a ++ ':' :: b) = a :: splitColon b := by
  intro a
  induction a with
  | nil => intro b _; simp [splitColon]
  | cons c cs ih =>
    intro b h
    have hc : ¬ c = ':' := fun hc => h (by simp [hc])
    have hcs : ':' ∉ cs := fun hm => h (by simp [hm])
    rw [List.cons_append, splitColon, if_neg hc, ih b hcs]

/-- A trailing colon produces a trailing empty group. -/
theorem splitColon_append_trailing :
    ∀ a : List Char, splitColon (a ++ [':']) = splitColon a ++ [[]] := by
  intro a
  induction a with
  | nil => simp [splitColon]
  | cons c cs ih =>
    by_cases hc : c = ':'
    · subst hc
      rw [List.cons_append, splitColon, if_pos rfl, ih, splitColon, if_pos rfl]
      rfl
    · rw [List.cons_append, splitColon, if_neg hc, ih]
      rcases hg : splitColon cs with _ | ⟨g, gs⟩
      · exact absurd hg (splitColon_ne_nil cs)
      · rw [splitColon, if_neg hc, hg]
        rfl

/-- The number of groups is the number of colons plus one. -/
theorem splitColon_length : ∀ l : List Char, (splitColon l).length = l.count ':' + 1 := by
  intro l
  induction l with
  | nil => rfl
  | cons c cs ih =>
    by_cases hc : c = ':'
    · subst hc
      rw [splitColon, if_pos rfl, List.count_cons]
      simp [ih]
    · rw [splitColon, if_neg hc, List.count_cons, beq_eq_false_iff_ne.mpr hc]
      rcases hg : splitColon cs with _ | ⟨g, gs⟩
      · exact absurd hg (splitColon_ne_nil cs)
      · rw [hg] at ih
        simp at ih ⊢
        omega

/-- Counterexample to C9 as stated: the empty string contains no colon, yet
parse_distro_name rejects it instead of mapping it to ("", "latest") — the
regex requires at least one character in the name. -/
theorem claim_C9_counterexample :
    parse_distro_name "" = .error "failed to parse distribution name"
    ∧ ':' ∉ ("" : String).data :=
  ⟨rfl, by decide⟩

/-- C9 amended: parse_distro_name maps an input with no colon and at least
one character to (input, "latest"); an input name:tag with exactly one colon
and both parts nonempty to (name, tag); and rejects inputs with two or more
colons, an empty name part (including the empty string and any input
starting with a colon), or an empty tag part (any input ending in a
colon). -/
theorem claim_C9 :
    (∀ s : String, s ≠ "" → ':' ∉ s.data → parse_distro_name s = .ok (s, "latest"))
    ∧ (∀ a b : List Char, a ≠ [] → b ≠ [] → ':' ∉ a → ':' ∉ b →
        parse_distro_name (String.mk (a ++ ':' :: b)) = .ok (String.mk a, String.mk b))
    ∧ (∀ s : String, 2 ≤ s.data.count ':' →
        parse_distro_name s = .error "failed to parse distribution name")
    ∧ (∀ b : List Char,
        parse_distro_name (String.mk (':' :: b)) = .error "failed to parse distribution name")
    ∧ (∀ a : List Char,
        parse_distro_name (String.mk (a ++ [':'])) = .error "failed to parse distribution name") := by
  refine ⟨?_, ?_, ?_, ?_, ?_⟩
  · intro s hs hc
    have hd : s.data ≠ [] := fun h => hs (String.ext (h.trans rfl))
    have hmk : String.mk s.data = s := by cases s; rfl
    simp [parse_distro_name, splitColon_no_colon s.data hc, hd, hmk]
  · intro a b ha hb hca hcb
    simp [parse_distro_name, splitColon_append_colon a b hca, splitColon_no_colon b hcb, ha, hb]
  · intro s h2
    have hlen : 3 ≤ (splitColon s.data).length := by rw [splitColon_length]; omega
    rcases e : splitColon s.data with _ | ⟨x, _ | ⟨y, _ | ⟨z, rest⟩⟩⟩ <;> rw [e] at hlen
    · simp at hlen
    · simp at hlen
    · simp at hlen
    · rw [parse_distro_name, e]
  · intro b
    rcases e : splitColon b with _ | ⟨g, gs⟩
    · exact absurd e (splitColon_ne_nil b)
    · rcases gs with _ | ⟨g2, gs2⟩ <;> simp [parse_distro_name, splitColon, e]
  · intro a
    have ht := splitColon_append_trailing a
    rcases e : splitColon a with _ | ⟨g, gs⟩
    · exact absurd e (splitColon_ne_nil a)
    · rw [e] at ht
      rcases gs with _ | ⟨g2, gs2⟩
      · simp [parse_distro_name, ht]
      · rcases e2 : gs2 ++ [([] : List Char)] with _ | ⟨w, ws⟩
        · simp at e2
        · simp only [parse_distro_name, ht, List.cons_append, e2]

/-- Witness for the amended C9: a colon-free name gets the default tag and a
name:tag input is split at the colon. -/
theorem claim_C9_witness :
    parse_distro_name "ubuntu" = .ok ("ubuntu", "latest")
    ∧ parse_distro_name (String.mk ("ubuntu".data ++ ':' :: "20.04".data))
        = .ok (String.mk "ubuntu".data, String.mk "20.04".data) :=
  ⟨claim_C9.1 "ubuntu" (by decide) (by decide),
   claim_C9.2.1 "ubuntu".data "20.04".data (by decide) (by decide) (by decide) (by decide)⟩

/-- C6: both in the install user-setup block and in set_default_user, the
configure_distribution call that commits the new default uid receives exactly
the wsl_distribution_flags value returned by the immediately preceding
get_distribution_configuration call on the same distribution, so the flags
round-trip unchanged when only the default uid is updated (the uid itself is
the queried u64 truncated to u32 by the as cast). -/
theorem claim_C6 (env : HostEnv) (distro user pass : String) (uid : Nat) (conf : DistConf)
    (hq : env.queryUidRes = .ok uid) (hg : env.getConfRes = .ok conf) :
    (set_default_user env distro user).2
        = [.queryUidCall distro user, .getConfCall distro,
           .configureCall distro (uid % 4294967296) conf.wsl_distribution_flags]
    ∧ (env.createUserRes = .ok () →
        (install_user_setup env distro user pass).2
          = [.createUserCall distro user pass, .queryUidCall distro user, .getConfCall distro,
             .configureCall distro (uid % 4294967296) conf.wsl_distribution_flags]) := by
  constructor
  · simp [set_default_user, hq, hg]
  · intro hc
    simp [install_user_setup, hc, hq, hg]

/-- Host environment for the C6 witness. -/
def hostEnvOk : HostEnv :=
  ⟨.ok (), .ok 1000, .ok ⟨2, 0, 15, ["PATH=/usr/bin"]⟩, .ok ()⟩

/-- Witness for C6 at a concrete host environment: flags value 15 read by
get_distribution_configuration is passed unchanged to configure_distribution. -/
theorem claim_C6_witness :
    (set_default_user hostEnvOk "ubuntu-latest" "alice").2
        = [.queryUidCall "ubuntu-latest" "alice", .getConfCall "ubuntu-latest",
           .configureCall "ubuntu-latest" (1000 % 4294967296) 15]
    ∧ (hostEnvOk.createUserRes = .ok () →
        (install_user_setup hostEnvOk "ubuntu-latest" "alice" "pw").2
          = [.createUserCall "ubuntu-latest" "alice" "pw",
             .queryUidCall "ubuntu-latest" "alice", .getConfCall "ubuntu-latest",
             .configureCall "ubuntu-latest" (1000 % 4294967296) 15]) :=
  claim_C6 hostEnvOk "ubuntu-latest" "alice" "pw" 1000 ⟨2, 0, 15, ["PATH=/usr/bin"]⟩ rfl rfl
